import Mathlib

/-!
Shallow embedding of the `ddog` request-builder core (`src/builder.rs`,
`src/types/mod.rs`, `src/lib.rs`) together with models of the repository
modules that are declared but whose files are not present
(`types/version.rs`, the `routes::metrics::*` endpoint descriptors) and of
the external JSON collaborator (`serde_json`).

Rust panics are embedded as the `error` side of `Except Panic _`; the
`tracing::error!` side effect is embedded by returning the list of emitted
log events; `&self`/`&mut self` methods are embedded by explicit state
passing of the `Builder` value.
-/

namespace Ddog

/-- Modelled from the spec: `types/version.rs` is not present in the sources.
The spec describes `ApiVersion` as a closed enumeration with `V1`, `V2` and
"an unset/default variant" that `Default` yields. -/
inductive ApiVersion where
  | Unset
  | V1
  | V2
deriving DecidableEq, Repr

/-- Modelled from the spec: the `Default` instance of `ApiVersion` yields the
unset/default variant. -/
def ApiVersion.default : ApiVersion := ApiVersion.Unset

/-- The error produced by a version-gated endpoint factory: the spec describes
construction failing with an "unsupported version for this endpoint"
condition carrying the attempted version. The concrete Rust error type lives
in the absent `routes` files; it is modelled from the spec. -/
inductive RouteError where
  | unsupportedVersion (attempted : ApiVersion)
deriving DecidableEq, Repr

/-- A fatal termination. `unimplementedApiVersion` embeds
`panic!("Unimplemented API Version")` and `unimplementedApiVersionWith e`
embeds `panic!("Unimplemented API Version: {:?}", e)` from `builder.rs`. -/
inductive Panic where
  | unimplementedApiVersion
  | unimplementedApiVersionWith (cause : RouteError)
deriving DecidableEq, Repr

/-- A structured log event emitted through `tracing::error!(target: "builder", ...)`
in `builder.rs`: the target, the static message text, the attempted api
version and the underlying factory error interpolated into the message. -/
structure LogEvent where
  target : String
  message : String
  attemptedVersion : ApiVersion
  cause : RouteError
deriving DecidableEq, Repr

/-- Modelled from the spec: `routes/metrics/tags.rs` is absent. The spec
describes each endpoint descriptor as a small data-holder carrying only the
fields relevant to that endpoint (here: the metric name). -/
structure Tags where
  metric_name : String
deriving DecidableEq, Repr

/-- Modelled from the spec: `Tags::new(metric_name)` constructs the tag
configuration endpoint descriptor for the given metric name
(invoked at `builder.rs` line 100). -/
def Tags.new (metric_name : String) : Tags := ⟨metric_name⟩

/-- Modelled from the spec: `routes/metrics/series.rs` is absent. The series
submission descriptor is constructed in its default/empty state. -/
structure Series where
deriving DecidableEq, Repr

/-- Modelled from the spec: `Series::new()` constructs the series endpoint
descriptor in its default/empty state (invoked at `builder.rs` line 112). -/
def Series.new : Series := {}

/-- Modelled from the spec: `routes/metrics/distribution.rs` is absent. The
distribution-points descriptor is a data-holder with no configuration fields
visible to the builder. -/
structure Distribution where
deriving DecidableEq, Repr

/-- Modelled from the spec: the set of api versions for which the
distribution-points endpoint is constructible. The spec does not name the
supported set for this endpoint; `V1` is chosen (the upstream monitoring
API's distribution-points endpoint). No claim depends on which versions are
in this set, only on `try_from` succeeding exactly on it. -/
def Distribution.supported (v : ApiVersion) : Bool := v == ApiVersion.V1

/-- Modelled from the spec: the version-gated factory
`Distribution::try_from(version)` either succeeds with the descriptor in its
default state or fails with the unsupported-version condition. -/
def Distribution.try_from (v : ApiVersion) : Except RouteError Distribution :=
  if Distribution.supported v then Except.ok {}
  else Except.error (RouteError.unsupportedVersion v)

/-- Modelled from the spec: `routes/metrics/get_metrics.rs` is absent. The
metric-listing descriptor carries a pagination offset and optional host and
tag filters (held as plain strings, empty when absent). -/
structure GetMetrics where
  from_ : Nat
  host : String
  tag_filter : String
deriving DecidableEq, Repr

/-- Modelled from the spec: the set of api versions for which the
metric-listing endpoint is constructible; `V2` per the spec's worked example
(`get_metrics(10, None, Some ...)` under `V2` succeeds). -/
def GetMetrics.supported (v : ApiVersion) : Bool := v == ApiVersion.V2

/-- Modelled from the spec: the version-gated factory
`GetMetrics::try_from(version)` either succeeds with the descriptor in its
default/empty state or fails with the unsupported-version condition. -/
def GetMetrics.try_from (v : ApiVersion) : Except RouteError GetMetrics :=
  if GetMetrics.supported v then Except.ok ⟨0, "", ""⟩
  else Except.error (RouteError.unsupportedVersion v)

/-- Modelled from the spec: builder-style setter `set_from` mutates the
pagination offset and returns self. -/
def GetMetrics.set_from (g : GetMetrics) (f : Nat) : GetMetrics := { g with from_ := f }

/-- Modelled from the spec: builder-style setter `set_host` mutates the host
filter and returns self. -/
def GetMetrics.set_host (g : GetMetrics) (h : String) : GetMetrics := { g with host := h }

/-- Modelled from the spec: builder-style setter `set_tag_filter` mutates the
tag filter and returns self. -/
def GetMetrics.set_tag_filter (g : GetMetrics) (t : String) : GetMetrics := { g with tag_filter := t }

/-- Model of the external collaborator `serde_json`: the parse error returned
by `serde_json::from_str`. Only the message text is modelled. -/
structure ParseError where
  msg : String
deriving DecidableEq, Repr

/-- Model of `serde_json::value::Value`: a JSON document. Number values keep
their source lexeme, which is all validation needs. -/
inductive JsonValue where
  | null
  | bool (b : Bool)
  | num (lexeme : String)
  | str (s : String)
  | arr (items : List JsonValue)
  | obj (members : List (String × JsonValue))

namespace SerdeJson

/-- JSON insignificant whitespace. -/
def isJsonWs (c : Char) : Bool :=
  c == ' ' || c == '\t' || c == '\n' || c == '\r'

/-- Drop leading JSON whitespace. -/
def skipWs : List Char → List Char
  | [] => []
  | c :: cs => if isJsonWs c then skipWs cs else c :: cs

/-- Value of a hexadecimal digit, if any. -/
def hexVal (c : Char) : Option Nat :=
  if '0' ≤ c ∧ c ≤ '9' then some (c.toNat - 48)
  else if 'a' ≤ c ∧ c ≤ 'f' then some (c.toNat - 87)
  else if 'A' ≤ c ∧ c ≤ 'F' then some (c.toNat - 55)
  else none

/-- Parse the remainder of a JSON string after the opening quote: ordinary
characters, the JSON escapes and `\uXXXX`; unescaped control characters are
rejected. Returns the string and the unconsumed input. -/
def parseStringRest (fuel : Nat) (acc : List Char) (cs : List Char) :
    Except ParseError (String × List Char) :=
  match fuel with
  | 0 => Except.error ⟨"recursion limit exceeded"⟩
  | fuel + 1 =>
    match cs with
    | [] => Except.error ⟨"EOF while parsing a string"⟩
    | c :: cs1 =>
      if c == '"' then Except.ok (String.mk acc.reverse, cs1)
      else if c == '\\' then
        match cs1 with
        | [] => Except.error ⟨"EOF while parsing a string"⟩
        | e :: cs2 =>
          if e == '"' || e == '\\' || e == '/' then parseStringRest fuel (e :: acc) cs2
          else if e == 'b' then parseStringRest fuel ('\x08' :: acc) cs2
          else if e == 'f' then parseStringRest fuel ('\x0c' :: acc) cs2
          else if e == 'n' then parseStringRest fuel ('\n' :: acc) cs2
          else if e == 'r' then parseStringRest fuel ('\r' :: acc) cs2
          else if e == 't' then parseStringRest fuel ('\t' :: acc) cs2
          else if e == 'u' then
            match cs2 with
            | h1 :: h2 :: h3 :: h4 :: cs3 =>
              match hexVal h1, hexVal h2, hexVal h3, hexVal h4 with
              | some a, some b, some c2, some d =>
                  parseStringRest fuel
                    (Char.ofNat (((a * 16 + b) * 16 + c2) * 16 + d) :: acc) cs3
              | _, _, _, _ => Except.error ⟨"invalid escape"⟩
            | _ => Except.error ⟨"EOF while parsing a string"⟩
          else Except.error ⟨"invalid escape"⟩
      else if c.toNat < 32 then Except.error ⟨"control character in string"⟩
      else parseStringRest fuel (c :: acc) cs1

/-- Parse the optional fraction and exponent parts of a number whose integer
part has already been consumed into `intPart`. -/
def parseFracExp (intPart : List Char) (cs : List Char) :
    Except ParseError (JsonValue × List Char) :=
  let afterFrac : Except ParseError (List Char × List Char) :=
    match cs with
    | '.' :: r =>
      let (ds, r1) := List.span Char.isDigit r
      if ds.isEmpty then Except.error ⟨"invalid number"⟩
      else Except.ok (intPart ++ '.' :: ds, r1)
    | _ => Except.ok (intPart, cs)
  match afterFrac with
  | Except.error e => Except.error e
  | Except.ok (lex1, cs2) =>
    match cs2 with
    | e :: r =>
      if e == 'e' || e == 'E' then
        let (sign, r1) :=
          match r with
          | s :: r2 => if s == '+' || s == '-' then ([s], r2) else ([], s :: r2)
          | [] => ([], ([] : List Char))
        let (ds, r2) := List.span Char.isDigit r1
        if ds.isEmpty then Except.error ⟨"invalid number"⟩
        else Except.ok (JsonValue.num (String.mk (lex1 ++ e :: (sign ++ ds))), r2)
      else Except.ok (JsonValue.num (String.mk lex1), e :: r)
    | [] => Except.ok (JsonValue.num (String.mk lex1), [])

/-- Parse a JSON number starting at the head of `cs`; leading zeros are
rejected as in `serde_json`. -/
def parseNumber (cs : List Char) : Except ParseError (JsonValue × List Char) :=
  let (negPart, cs1) :=
    match cs with
    | '-' :: r => (['-'], r)
    | _ => (([] : List Char), cs)
  match cs1 with
  | [] => Except.error ⟨"EOF while parsing a value"⟩
  | c :: rest =>
    if c == '0' then parseFracExp (negPart ++ ['0']) rest
    else if c.isDigit then
      let (ds, rest1) := List.span Char.isDigit rest
      parseFracExp (negPart ++ c :: ds) rest1
    else Except.error ⟨"invalid number"⟩

/-- Expect the literal `lit` at the head of the input and yield `v`. -/
def expectLit (lit : List Char) (v : JsonValue) (cs : List Char) :
    Except ParseError (JsonValue × List Char) :=
  if lit.isPrefixOf cs then Except.ok (v, cs.drop lit.length)
  else Except.error ⟨"expected ident"⟩

mutual

/-- Parse one JSON value from the input (fuel bounds the nesting). -/
def parseValue (fuel : Nat) (cs0 : List Char) :
    Except ParseError (JsonValue × List Char) :=
  match fuel with
  | 0 => Except.error ⟨"recursion limit exceeded"⟩
  | fuel + 1 =>
    match skipWs cs0 with
    | [] => Except.error ⟨"EOF while parsing a value"⟩
    | c :: cs =>
      if c == 'n' then expectLit ['n', 'u', 'l', 'l'] JsonValue.null (c :: cs)
      else if c == 't' then expectLit ['t', 'r', 'u', 'e'] (JsonValue.bool true) (c :: cs)
      else if c == 'f' then expectLit ['f', 'a', 'l', 's', 'e'] (JsonValue.bool false) (c :: cs)
      else if c == '"' then
        match parseStringRest (cs.length + 1) [] cs with
        | Except.ok (s, rest) => Except.ok (JsonValue.str s, rest)
        | Except.error e => Except.error e
      else if c == '-' || c.isDigit then parseNumber (c :: cs)
      else if c == '[' then
        match skipWs cs with
        | ']' :: cs2 => Except.ok (JsonValue.arr [], cs2)
        | cs2 => parseArrayItems fuel cs2 []
      else if c == '\x7b' then
        match skipWs cs with
        | c2 :: cs2 =>
          if c2 == '\x7d' then Except.ok (JsonValue.obj [], cs2)
          else parseObjectMembers fuel (c2 :: cs2) []
        | [] => Except.error ⟨"EOF while parsing an object"⟩
      else Except.error ⟨"expected value"⟩

/-- Parse the comma-separated items of a non-empty JSON array, accumulating
into `acc`, up to the closing bracket. -/
def parseArrayItems (fuel : Nat) (cs : List Char) (acc : List JsonValue) :
    Except ParseError (JsonValue × List Char) :=
  match fuel with
  | 0 => Except.error ⟨"recursion limit exceeded"⟩
  | fuel + 1 =>
    match parseValue fuel cs with
    | Except.error e => Except.error e
    | Except.ok (v, rest) =>
      match skipWs rest with
      | ',' :: rest1 => parseArrayItems fuel rest1 (v :: acc)
      | ']' :: rest1 => Except.ok (JsonValue.arr (v :: acc).reverse, rest1)
      | _ => Except.error ⟨"expected comma or bracket"⟩

/-- Parse the members of a non-empty JSON object, accumulating into `acc`, up
to the closing brace. -/
def parseObjectMembers (fuel : Nat) (cs : List Char) (acc : List (String × JsonValue)) :
    Except ParseError (JsonValue × List Char) :=
  match fuel with
  | 0 => Except.error ⟨"recursion limit exceeded"⟩
  | fuel + 1 =>
    match skipWs cs with
    | '"' :: cs1 =>
      match parseStringRest (cs1.length + 1) [] cs1 with
      | Except.error e => Except.error e
      | Except.ok (key, rest) =>
        match skipWs rest with
        | ':' :: rest1 =>
          match parseValue fuel rest1 with
          | Except.error e => Except.error e
          | Except.ok (v, rest2) =>
            match skipWs rest2 with
            | ',' :: rest3 => parseObjectMembers fuel rest3 ((key, v) :: acc)
            | c3 :: rest3 =>
              if c3 == '\x7d' then
                Except.ok (JsonValue.obj ((key, v) :: acc).reverse, rest3)
              else Except.error ⟨"expected comma or brace"⟩
            | [] => Except.error ⟨"EOF while parsing an object"⟩
        | _ => Except.error ⟨"expected colon"⟩
    | _ => Except.error ⟨"key must be a string"⟩

end

/-- Model of `serde_json::from_str::<serde_json::value::Value>`: parse one
JSON document and require that only whitespace remains. -/
def from_str (body : String) : Except ParseError JsonValue :=
  match parseValue (2 * body.length + 8) body.data with
  | Except.ok (v, rest) =>
    match skipWs rest with
    | [] => Except.ok v
    | _ => Except.error ⟨"trailing characters"⟩
  | Except.error e => Except.error e

end SerdeJson

/-- The builder from `builder.rs`: the selected api version and the
accumulated request headers. -/
structure Builder where
  version : ApiVersion
  headers : List (String × String)
deriving DecidableEq, Repr

/-- The derived `Default` of `Builder` (`#[derive(Default)]`, `builder.rs`
line 31): default version, empty header vector. -/
def Builder.default : Builder := ⟨ApiVersion.default, []⟩

/-- `Builder::new` (`builder.rs` lines 41-43): `Self::default()`. -/
def Builder.new : Builder := Builder.default

/-- `Builder::is_body_valid_json` (`builder.rs` lines 48-53): an associated
function (no `self`) that runs `serde_json::from_str::<Value>` on the body
and returns `None` on success and `Some` of the parse error on failure. -/
def Builder.is_body_valid_json (body : String) : Option ParseError :=
  match SerdeJson.from_str body with
  | Except.ok _ => none
  | Except.error e => some e

/-- Embedding of an invocation of the associated function
`Builder::is_body_valid_json` in the context of a builder value: the Rust
function takes no `self` borrow, so the builder in scope is passed through
untouched alongside the result. -/
def Builder.call_is_body_valid_json (b : Builder) (body : String) :
    Option ParseError × Builder :=
  (Builder.is_body_valid_json body, b)

/-- `Builder::v1` (`builder.rs` lines 67-70): sets the version to `V1` and
returns the builder for chaining. -/
def Builder.v1 (b : Builder) : Builder := { b with version := ApiVersion.V1 }

/-- `Builder::v2` (`builder.rs` lines 73-76): sets the version to `V2` and
returns the builder for chaining. -/
def Builder.v2 (b : Builder) : Builder := { b with version := ApiVersion.V2 }

/-- Modelled from the spec: `with_headers(pairs)` is named by the spec but its
body is not among the sources (the `Builder` struct only declares the
`headers` field). Per the spec it appends the given pairs to the header list
and returns the builder for chaining. -/
def Builder.with_headers (b : Builder) (pairs : List (String × String)) : Builder :=
  { b with headers := b.headers ++ pairs }

/-- `Builder::create_new_tag_config` (`builder.rs` lines 94-103): under `V2`
returns `Tags::new(metric_name)`, otherwise panics with
"Unimplemented API Version". The `&self` borrow is embedded by returning the
(unchanged) builder state alongside the result. -/
def Builder.create_new_tag_config (b : Builder) (metric_name : String) :
    Builder × Except Panic Tags :=
  match b.version with
  | ApiVersion.V2 => (b, Except.ok (Tags.new metric_name))
  | _ => (b, Except.error Panic.unimplementedApiVersion)

/-- `Builder::post_series` (`builder.rs` lines 106-115): under `V2` returns
`Series::new()`, otherwise panics with "Unimplemented API Version". -/
def Builder.post_series (b : Builder) : Builder × Except Panic Series :=
  match b.version with
  | ApiVersion.V2 => (b, Except.ok Series.new)
  | _ => (b, Except.error Panic.unimplementedApiVersion)

/-- `Builder::post_distribution` (`builder.rs` lines 118-130): constructs via
`Distribution::try_from(self.version)`; on failure it first emits a
structured `tracing::error!` log with the attempted version and the cause and
then panics with "Unimplemented API Version: {:?}". The emitted log events
are returned in order alongside the result. -/
def Builder.post_distribution (b : Builder) :
    Builder × List LogEvent × Except Panic Distribution :=
  match Distribution.try_from b.version with
  | Except.ok distribution => (b, [], Except.ok distribution)
  | Except.error e =>
      (b,
       [⟨"builder", "Failed to create distribution for api version", b.version, e⟩],
       Except.error (Panic.unimplementedApiVersionWith e))

/-- `Builder::get_metrics` (`builder.rs` lines 133-153): constructs via
`GetMetrics::try_from(self.version)`; on success applies
`set_from(from)`, `set_host(host.unwrap_or(""))`,
`set_tag_filter(tag_filter.unwrap_or(""))` and returns the configured
descriptor; on failure it first emits a structured `tracing::error!` log with
the attempted version and the cause and then panics. -/
def Builder.get_metrics (b : Builder) (from_ : Nat)
    (host : Option String) (tag_filter : Option String) :
    Builder × List LogEvent × Except Panic GetMetrics :=
  match GetMetrics.try_from b.version with
  | Except.ok metrics =>
      (b, [],
       Except.ok (((metrics.set_from from_).set_host (host.getD "")).set_tag_filter
         (tag_filter.getD "")))
  | Except.error e =>
      (b,
       [⟨"builder", "Failed to create metrics for api version", b.version, e⟩],
       Except.error (Panic.unimplementedApiVersionWith e))

/-- The spec's notion of support for the tag-configuration endpoint
("valid only under V2"), stated from the spec's words to compare against the
gate implemented in `builder.rs`. -/
def Tags.supported (v : ApiVersion) : Bool := v == ApiVersion.V2

/-- The spec's notion of support for the series-submission endpoint
("valid only under V2"), stated from the spec's words to compare against the
gate implemented in `builder.rs`. -/
def Series.supported (v : ApiVersion) : Bool := v == ApiVersion.V2

/-- C1: for every builder state, each route-producing operation yields a
route exactly when the builder's version supports that endpoint, and
otherwise ends in a panic and produces no route. -/
theorem C1_route_produced_iff_version_supported
    (b : Builder) (metric_name : String) (from_ : Nat) (host tag_filter : Option String) :
    ((∃ r, (b.create_new_tag_config metric_name).2 = Except.ok r)
        ↔ Tags.supported b.version = true)
  ∧ ((∃ p, (b.create_new_tag_config metric_name).2 = Except.error p)
        ↔ ¬ Tags.supported b.version = true)
  ∧ ((∃ r, b.post_series.2 = Except.ok r) ↔ Series.supported b.version = true)
  ∧ ((∃ p, b.post_series.2 = Except.error p) ↔ ¬ Series.supported b.version = true)
  ∧ ((∃ r, b.post_distribution.2.2 = Except.ok r) ↔ Distribution.supported b.version = true)
  ∧ ((∃ p, b.post_distribution.2.2 = Except.error p)
        ↔ ¬ Distribution.supported b.version = true)
  ∧ ((∃ r, (b.get_metrics from_ host tag_filter).2.2 = Except.ok r)
        ↔ GetMetrics.supported b.version = true)
  ∧ ((∃ p, (b.get_metrics from_ host tag_filter).2.2 = Except.error p)
        ↔ ¬ GetMetrics.supported b.version = true) := by
  obtain ⟨v, hs⟩ := b
  cases v <;>
    simp [Builder.create_new_tag_config, Builder.post_series, Builder.post_distribution,
      Builder.get_metrics, Distribution.try_from, GetMetrics.try_from,
      Distribution.supported, GetMetrics.supported, Tags.supported, Series.supported] <;>
    exact ⟨⟨⟩, trivial⟩

/-- C2: `create_new_tag_config` and `post_series` return a route of the
correct concrete endpoint kind exactly under version `V2`, and panic exactly
under every other version value. -/
theorem C2_tag_config_and_series_v2_only (b : Builder) (metric_name : String) :
    ((b.create_new_tag_config metric_name).2 = Except.ok (Tags.new metric_name)
        ↔ b.version = ApiVersion.V2)
  ∧ (b.post_series.2 = Except.ok Series.new ↔ b.version = ApiVersion.V2)
  ∧ ((b.create_new_tag_config metric_name).2 = Except.error Panic.unimplementedApiVersion
        ↔ b.version ≠ ApiVersion.V2)
  ∧ (b.post_series.2 = Except.error Panic.unimplementedApiVersion
        ↔ b.version ≠ ApiVersion.V2) := by
  obtain ⟨v, hs⟩ := b
  cases v <;> simp [Builder.create_new_tag_config, Builder.post_series]

/-- C3: under version `V2`, `get_metrics` succeeds, leaves the builder
unchanged, logs nothing, and returns the descriptor configured with the given
offset, the host filter defaulted to the empty string when absent, and the
tag filter defaulted to the empty string when absent. -/
theorem C3_get_metrics_v2_fully_configured
    (b : Builder) (from_ : Nat) (host tag_filter : Option String)
    (h : b.version = ApiVersion.V2) :
    b.get_metrics from_ host tag_filter =
      (b, [], Except.ok ⟨from_, host.getD "", tag_filter.getD ""⟩) := by
  simp [Builder.get_metrics, GetMetrics.try_from, GetMetrics.supported, h,
    GetMetrics.set_from, GetMetrics.set_host, GetMetrics.set_tag_filter]

/-- Witness for C3 at the spec's worked example: a `V2` builder with
`get_metrics(10, None, Some "env:prod")` yields offset 10, host `""`,
tag filter `"env:prod"`. -/
theorem C3_get_metrics_v2_fully_configured_witness :
    (Builder.mk ApiVersion.V2 []).version = ApiVersion.V2
  ∧ (Builder.mk ApiVersion.V2 []).get_metrics 10 none (some "env:prod") =
      (Builder.mk ApiVersion.V2 [], [], Except.ok ⟨10, "", "env:prod"⟩) :=
  ⟨rfl, C3_get_metrics_v2_fully_configured (Builder.mk ApiVersion.V2 []) 10 none
    (some "env:prod") rfl⟩

/-- C4: whenever the version-gated factory fails, `post_distribution` and
`get_metrics` emit exactly one structured log event carrying the attempted
version and the underlying cause, and then panic with that cause. -/
theorem C4_factory_failure_logs_then_panics
    (b : Builder) (e : RouteError) (from_ : Nat) (host tag_filter : Option String) :
    (Distribution.try_from b.version = Except.error e →
      b.post_distribution =
        (b, [⟨"builder", "Failed to create distribution for api version", b.version, e⟩],
         Except.error (Panic.unimplementedApiVersionWith e)))
  ∧ (GetMetrics.try_from b.version = Except.error e →
      b.get_metrics from_ host tag_filter =
        (b, [⟨"builder", "Failed to create metrics for api version", b.version, e⟩],
         Except.error (Panic.unimplementedApiVersionWith e))) := by
  constructor
  · intro h
    simp [Builder.post_distribution, h]
  · intro h
    simp [Builder.get_metrics, h]

/-- Witness for C4 at the unset default version, where both factories fail
with the unsupported-version condition. -/
theorem C4_factory_failure_logs_then_panics_witness :
    Distribution.try_from ApiVersion.Unset =
      Except.error (RouteError.unsupportedVersion ApiVersion.Unset)
  ∧ GetMetrics.try_from ApiVersion.Unset =
      Except.error (RouteError.unsupportedVersion ApiVersion.Unset)
  ∧ (Builder.mk ApiVersion.Unset []).post_distribution =
      (Builder.mk ApiVersion.Unset [],
       [⟨"builder", "Failed to create distribution for api version", ApiVersion.Unset,
         RouteError.unsupportedVersion ApiVersion.Unset⟩],
       Except.error (Panic.unimplementedApiVersionWith
         (RouteError.unsupportedVersion ApiVersion.Unset)))
  ∧ (Builder.mk ApiVersion.Unset []).get_metrics 0 none none =
      (Builder.mk ApiVersion.Unset [],
       [⟨"builder", "Failed to create metrics for api version", ApiVersion.Unset,
         RouteError.unsupportedVersion ApiVersion.Unset⟩],
       Except.error (Panic.unimplementedApiVersionWith
         (RouteError.unsupportedVersion ApiVersion.Unset))) :=
  ⟨rfl, rfl,
   (C4_factory_failure_logs_then_panics (Builder.mk ApiVersion.Unset [])
     (RouteError.unsupportedVersion ApiVersion.Unset) 0 none none).1 rfl,
   (C4_factory_failure_logs_then_panics (Builder.mk ApiVersion.Unset [])
     (RouteError.unsupportedVersion ApiVersion.Unset) 0 none none).2 rfl⟩

/-- C5: `is_body_valid_json` returns `none` exactly when the body parses as
valid JSON and otherwise returns the parse error; in particular it accepts
the empty object and rejects an unterminated one. -/
theorem C5_is_body_valid_json_iff_parses :
    (∀ body : String,
      (Builder.is_body_valid_json body = none ↔ ∃ v, SerdeJson.from_str body = Except.ok v)
      ∧ ∀ e, SerdeJson.from_str body = Except.error e →
          Builder.is_body_valid_json body = some e)
  ∧ Builder.is_body_valid_json "\x7b\x7d" = none
  ∧ ∃ e, Builder.is_body_valid_json "\x7binvalid" = some e := by
  refine ⟨fun body => ⟨?_, ?_⟩, rfl, ⟨⟨"key must be a string"⟩, rfl⟩⟩
  · unfold Builder.is_body_valid_json
    cases h : SerdeJson.from_str body <;> simp
  · intro e h
    simp [Builder.is_body_valid_json, h]

/-- Witness for C5 at the unterminated object body, discharging the
error-propagation hypothesis at the concrete parse error. -/
theorem C5_is_body_valid_json_iff_parses_witness :
    SerdeJson.from_str "\x7binvalid" = Except.error ⟨"key must be a string"⟩
  ∧ Builder.is_body_valid_json "\x7binvalid" = some ⟨"key must be a string"⟩ :=
  ⟨rfl, (C5_is_body_valid_json_iff_parses.1 "\x7binvalid").2 ⟨"key must be a string"⟩ rfl⟩

/-- C6: `v1` and `v2` set the version field (leaving the headers alone),
never fail, return the builder for chaining, and selection is
last-write-wins: selecting `V2` then `V1` leaves version `V1`. -/
theorem C6_version_selection_last_write_wins (b : Builder) :
    b.v1 = { b with version := ApiVersion.V1 }
  ∧ b.v2 = { b with version := ApiVersion.V2 }
  ∧ (b.v1).version = ApiVersion.V1
  ∧ (b.v2).version = ApiVersion.V2
  ∧ (b.v1).headers = b.headers
  ∧ (b.v2).headers = b.headers
  ∧ ((b.v2).v1).version = ApiVersion.V1 :=
  ⟨rfl, rfl, rfl, rfl, rfl, rfl, rfl⟩

/-- C7: `with_headers` appends the given pairs to the header list preserving
order and duplicates and returns the builder for chaining; appending
A=1, B=2 and then A=3 to a fresh builder yields exactly those three pairs in
insertion order, and on any builder it appends exactly those three pairs. -/
theorem C7_with_headers_appends_in_order (b : Builder) (pairs : List (String × String)) :
    ((b.with_headers pairs).headers = b.headers ++ pairs
      ∧ (b.with_headers pairs).version = b.version)
  ∧ ((Builder.new.with_headers [("A", "1"), ("B", "2")]).with_headers
        [("A", "3")]).headers = [("A", "1"), ("B", "2"), ("A", "3")]
  ∧ ∀ b2 : Builder,
      ((b2.with_headers [("A", "1"), ("B", "2")]).with_headers [("A", "3")]).headers
        = b2.headers ++ [("A", "1"), ("B", "2"), ("A", "3")] := by
  refine ⟨⟨rfl, rfl⟩, rfl, fun b2 => ?_⟩
  simp [Builder.with_headers]

/-- C8: a default-constructed builder has the unset/default version variant
and an empty header list. -/
theorem C8_default_builder_unset_version_empty_headers :
    Builder.new.version = ApiVersion.Unset
  ∧ Builder.new.headers = []
  ∧ Builder.new = Builder.default
  ∧ Builder.new.version = ApiVersion.default :=
  ⟨rfl, rfl, rfl, rfl⟩

/-- C9: `is_body_valid_json` is pure and deterministic: invoked in the
context of any two builder states on the same body, the outcome is
identical, and the builder in scope is left unchanged. -/
theorem C9_is_body_valid_json_pure (b1 b2 : Builder) (body : String) :
    (b1.call_is_body_valid_json body).1 = (b2.call_is_body_valid_json body).1
  ∧ (b1.call_is_body_valid_json body).2 = b1 :=
  ⟨rfl, rfl⟩

/-- C10: every route-producing operation leaves the builder entirely
unchanged: the version field and the headers list after the call are those
before it. -/
theorem C10_operations_preserve_builder
    (b : Builder) (metric_name : String) (from_ : Nat) (host tag_filter : Option String) :
    ((b.create_new_tag_config metric_name).1.version = b.version
      ∧ (b.create_new_tag_config metric_name).1.headers = b.headers)
  ∧ (b.post_series.1.version = b.version ∧ b.post_series.1.headers = b.headers)
  ∧ (b.post_distribution.1.version = b.version ∧ b.post_distribution.1.headers = b.headers)
  ∧ ((b.get_metrics from_ host tag_filter).1.version = b.version
      ∧ (b.get_metrics from_ host tag_filter).1.headers = b.headers) := by
  obtain ⟨v, hs⟩ := b
  cases v <;>
    simp [Builder.create_new_tag_config, Builder.post_series, Builder.post_distribution,
      Builder.get_metrics, Distribution.try_from, GetMetrics.try_from,
      Distribution.supported, GetMetrics.supported]

end Ddog
